import Mathlib

/-!
Verification of the directory-walking PE dumper in
`examples/dump/filesystem.cpp` (functions `DumpFile` and `DumpDir`).

The C++ code is embedded shallowly:

* `DumpFile` becomes a pure function over a `FileModel` describing the
  outcomes of the fallible platform operations it performs (open, tell,
  seek, read, allocate, construct `Process`/`PeFile`, parse `NtHeaders`,
  `DumpPeFile`).  It returns the outcome with which the function returns,
  the ordered list of observable events (platform calls and report lines),
  and the value of the process-wide current-file-path tracker afterwards.

* `DumpDir` becomes a recursive function over a `DirListing` tree that
  records, for each directory level, what `FindFirstFileW`/`FindNextFileW`
  yield and, for each entry, how `IsDirectory`/`IsSymlink` classify it
  (or which `hadesmem::Error` that classification raises), plus how many
  times the thread pool rejects a `QueueTask` call before accepting.
  It returns the ordered event trace and, when an exception leaves the
  function, the `hadesmem::Error` it carries.
-/

namespace HadesDump

/-! ## The file sniffing pipeline (`DumpFile`) -/

/-- Outcomes of the fallible operations `DumpFile` performs on one file.

* `openOk`   — `hadesmem::detail::OpenFile` yields a good stream (`!file` is false);
* `size`     — the `tellg()` result (stream opened at end, so this is the file size);
* `seek1Ok`  — the first `seekg(0, beg)` (before the 2-byte peek) succeeds;
* `peekOk`   — `read(mz_buf.data(), 2)` succeeds;
* `byte0`, `byte1` — the two bytes read when the peek succeeds;
* `seek2Ok`  — the second `seekg(0, beg)` (before the full read) succeeds;
* `allocOk`  — `buf.resize(size)` does not throw `std::bad_alloc`;
* `readOk`   — the full `read(buf.data(), size)` succeeds;
* `processOk` — constructing `hadesmem::Process`/`hadesmem::PeFile` does not throw;
* `ntOk`     — constructing `hadesmem::NtHeaders` does not throw;
* `dumpOk`   — `DumpPeFile` does not throw. -/
structure FileModel where
  openOk : Bool
  size : Int
  seek1Ok : Bool
  peekOk : Bool
  byte0 : Nat
  byte1 : Nat
  seek2Ok : Bool
  allocOk : Bool
  readOk : Bool
  processOk : Bool
  ntOk : Bool
  dumpOk : Bool
  deriving Repr, DecidableEq

/-- The report lines `DumpFile` can write to its output stream. -/
inductive FReport : Type where
  | failedOpen        -- "Failed to open file."
  | emptyOrInvalid    -- "Empty or invalid file."
  | tooLargeToBePe    -- "File too large to be a valid PE."
  | seekWarn1         -- "WARNING! Seeking to beginning of file failed (1)."
  | headerReadFail    -- "WARNING! Failed to read header signature."
  | notPePass1        -- "Not a PE file (Pass 1)."
  | seekWarn2         -- "WARNING! Seeking to beginning of file failed (2)."
  | allocTooLarge     -- "WARNING! File too large."
  | dataReadFail      -- "WARNING! Failed to read file data."
  | notPePass2        -- "Not a PE file or wrong architecture (Pass 2)."
  deriving Repr, DecidableEq

/-- Observable events of one `DumpFile` run, in program order. -/
inductive FEv : Type where
  | setCurrentPath                     -- `SetCurrentFilePath(path)`
  | openF                              -- `OpenFile(path, in|binary|ate)`
  | tellg                              -- `file.tellg()`
  | seekBeg1                           -- first `file.seekg(0, beg)`
  | peek2                              -- `file.read(mz_buf.data(), 2)`
  | seekBeg2                           -- second `file.seekg(0, beg)`
  | allocBuf                           -- `buf.resize(size)`
  | readFull                           -- `file.read(buf.data(), size)`
  | mkProcess                          -- `Process(...)` and `PeFile(...)` construction
  | ntParse                            -- `NtHeaders(process, pe_file)` construction
  | deepDump                           -- `DumpPeFile(process, pe_file, path)`
  | reportLine (r : FReport)           -- `WriteNormal(out, ..., 0)`
  | warnUnsupported                    -- `WarnForCurrentFile(WarningType::kUnsupported)`
  | logUncaught (currentFile : Option String)
      -- the `catch (...)` handler: logs the diagnostic, then the current
      -- file path when `GetCurrentFilePath()` is nonempty
  deriving Repr, DecidableEq

/-- How a `DumpFile` run returns. -/
inductive FOutcome : Type where
  | rejectedOpen       -- returned after "Failed to open file."
  | rejectedEmpty      -- returned after "Empty or invalid file."
  | rejectedTooLarge   -- returned after "File too large to be a valid PE."
  | rejectedSeek1      -- returned after seek warning (1)
  | rejectedPeek       -- returned after "Failed to read header signature."
  | rejectedMagic      -- returned after "Not a PE file (Pass 1)."
  | rejectedSeek2      -- returned after seek warning (2)
  | rejectedAlloc      -- returned after "File too large." (bad_alloc)
  | rejectedRead       -- returned after "Failed to read file data."
  | rejectedStructure  -- returned after "Not a PE file ... (Pass 2)."
  | dumped             -- `DumpPeFile` completed
  | uncaught           -- the `catch (...)` handler ran
  deriving Repr, DecidableEq

/-- `2^32`, the modulus of the `static_cast<std::uint32_t>(size)` round trip. -/
def u32Mod : Int := 4294967296

/-- The body of `DumpFile`'s `try` block, from the `OpenFile` call onward.
Returns the outcome and the events, in the order the C++ executes them.
Exceptions from `Process`/`PeFile` construction and from `DumpPeFile`
reach the function-level `catch (...)`, which logs the diagnostic and the
current file path (= `path`, set at the start of this very call) when that
path is nonempty.  The `NtHeaders` exception is caught by the inner
`try`/`catch` and reported as "Pass 2". -/
def DumpFileTry (path : String) (f : FileModel) : FOutcome × List FEv :=
  if !f.openOk then
    (.rejectedOpen, [.openF, .reportLine .failedOpen])
  else if f.size ≤ 0 then
    (.rejectedEmpty, [.openF, .tellg, .reportLine .emptyOrInvalid])
  else if f.size % u32Mod ≠ f.size then
    (.rejectedTooLarge, [.openF, .tellg, .reportLine .tooLargeToBePe])
  else if !f.seek1Ok then
    (.rejectedSeek1, [.openF, .tellg, .seekBeg1, .reportLine .seekWarn1])
  else if !f.peekOk then
    (.rejectedPeek, [.openF, .tellg, .seekBeg1, .peek2, .reportLine .headerReadFail])
  else if f.byte0 ≠ 77 ∨ f.byte1 ≠ 90 then
    (.rejectedMagic, [.openF, .tellg, .seekBeg1, .peek2, .reportLine .notPePass1])
  else if !f.seek2Ok then
    (.rejectedSeek2, [.openF, .tellg, .seekBeg1, .peek2, .seekBeg2, .reportLine .seekWarn2])
  else if !f.allocOk then
    (.rejectedAlloc, [.openF, .tellg, .seekBeg1, .peek2, .seekBeg2, .allocBuf,
      .reportLine .allocTooLarge, .warnUnsupported])
  else if !f.readOk then
    (.rejectedRead, [.openF, .tellg, .seekBeg1, .peek2, .seekBeg2, .allocBuf, .readFull,
      .reportLine .dataReadFail])
  else if !f.processOk then
    (.uncaught, [.openF, .tellg, .seekBeg1, .peek2, .seekBeg2, .allocBuf, .readFull,
      .mkProcess, .logUncaught (if path = "" then none else some path)])
  else if !f.ntOk then
    (.rejectedStructure, [.openF, .tellg, .seekBeg1, .peek2, .seekBeg2, .allocBuf, .readFull,
      .mkProcess, .ntParse, .reportLine .notPePass2])
  else if !f.dumpOk then
    (.uncaught, [.openF, .tellg, .seekBeg1, .peek2, .seekBeg2, .allocBuf, .readFull,
      .mkProcess, .ntParse, .deepDump, .logUncaught (if path = "" then none else some path)])
  else
    (.dumped, [.openF, .tellg, .seekBeg1, .peek2, .seekBeg2, .allocBuf, .readFull,
      .mkProcess, .ntParse, .deepDump])

/-- `DumpFile(path)`: sets the process-wide current-file-path tracker to
`path` (the first statement of the `try` block), runs the pipeline, and
returns (outcome, events, tracker value afterwards).  The tracker is set
once at the start and never cleared, so its final value is `path`. -/
def DumpFile (path : String) (f : FileModel) : FOutcome × List FEv × String :=
  ((DumpFileTry path f).1, FEv.setCurrentPath :: (DumpFileTry path f).2, path)

/-- Spot check: a 3-byte non-`MZ` file is rejected at the magic stage. -/
example :
    (DumpFile "C:\\t.txt"
      ⟨true, 3, true, true, 65, 66, true, true, true, true, true, true⟩).1 =
      FOutcome.rejectedMagic := by decide

/-- Spot check: a good `MZ` file flows through to `DumpPeFile`. -/
example :
    (DumpFile "C:\\a.exe"
      ⟨true, 1024, true, true, 77, 90, true, true, true, true, true, true⟩).1 =
      FOutcome.dumped := by decide

/-! ## The directory walker (`DumpDir`) -/

/-- The Win32 error codes the walker inspects. -/
def ERROR_FILE_NOT_FOUND : Nat := 2
def ERROR_ACCESS_DENIED : Nat := 5
def ERROR_NO_MORE_FILES : Nat := 18
def ERROR_SHARING_VIOLATION : Nat := 32

/-- A `hadesmem::Error` as the walker sees it: its message and the
`ErrorCodeWinLast` info attached to it, when any. -/
structure HadesErr where
  msg : String
  winLast : Option Nat
  deriving Repr, DecidableEq

/-- Observable events of a `DumpDir` walk, in program order. -/
inductive WEv : Type where
  | enterDir (path : String)       -- "Entering dir: \x22path\x22."
  | dirEmpty                       -- "Directory is empty."
  | dirAccessDenied                -- "Access denied to directory."
  | curPath (p : String)           -- "Current path: \x22p\x22."
  | skipSymlink                    -- "Skipping symlink."
  | waitSlot                       -- `pool.WaitForSlot()`
  | queueAttempt (p : String) (accepted : Bool)
      -- `pool.QueueTask(task)` where the task captures exactly the path `p`
  | entrySharingViolation          -- "Sharing violation."
  | entryAccessDenied              -- "Access denied."
  | entryFileNotFound              -- "File not found."
  deriving Repr, DecidableEq

mutual
/-- One entry yielded by `FindFirstFileW`/`FindNextFileW`, together with
how the walker's platform calls behave on it:

* `realDir name listing` — `IsDirectory` true, `IsSymlink` false; recursing
  into it enumerates `listing`;
* `symlinkE name isDirAttr rejects` — `IsSymlink` would report true
  (a reparse-point symlink, whatever its target); `IsDirectory` reports
  `isDirAttr` (true for a symlink to a directory, false for a symlink to a
  file); `rejects` is the pool behavior if the entry is ever submitted;
* `plainFile name rejects` — `IsDirectory` false; the pool rejects
  `QueueTask` `rejects` times before accepting;
* `raisesErr name e` — classifying the entry (`IsDirectory` / `IsSymlink` /
  `MakeExtendedPath`) throws the `hadesmem::Error` `e`. -/
inductive Entry : Type where
  | realDir : String → DirListing → Entry
  | symlinkE : String → Bool → Nat → Entry
  | plainFile : String → Nat → Entry
  | raisesErr : String → HadesErr → Entry

/-- What enumerating one directory yields:
`failStart code` — `FindFirstFileW` fails and `GetLastError()` is `code`;
`ok entries termCode` — enumeration yields `entries` in order, and after the
last one `FindNextFileW` returns false with `GetLastError() = termCode`. -/
inductive DirListing : Type where
  | failStart : Nat → DirListing
  | ok : List Entry → Nat → DirListing
end

/-- The `cFileName` of an entry. -/
def Entry.name : Entry → String
  | .realDir n _ => n
  | .symlinkE n _ _ => n
  | .plainFile n _ => n
  | .raisesErr n _ => n

/-- What `hadesmem::detail::IsSymlink` reports for an entry: true exactly
for reparse-point symlinks, whether the target is a file or a directory. -/
def Entry.isSymlinkAttr : Entry → Bool
  | .symlinkE _ _ _ => true
  | _ => false

/-- The trailing-backslash normalization at the top of `DumpDir`. -/
def normalizePath (p : String) : String :=
  if p.back = '\\' then p.dropRight 1 else p

/-- The task-submission loop
`do { pool.WaitForSlot(); } while (!pool.QueueTask(task));`
when the pool rejects `QueueTask` `n` times before accepting:
each attempt is preceded by a `WaitForSlot`, and the loop exits on the
first accepted attempt. -/
def submitLoop (p : String) : Nat → List WEv
  | 0 => [WEv.waitSlot, WEv.queueAttempt p true]
  | Nat.succ n => WEv.waitSlot :: WEv.queueAttempt p false :: submitLoop p n

/-- The `catch (hadesmem::Error const& e)` handler of the per-entry loop:
`ERROR_SHARING_VIOLATION`, `ERROR_ACCESS_DENIED` and `ERROR_FILE_NOT_FOUND`
(read from the error's `ErrorCodeWinLast`, in that order) are reported and
enumeration continues; any other error — including one with no Win32 code
attached — is rethrown. -/
def entryCatch (pre : List WEv) (e : HadesErr) : List WEv × Option HadesErr :=
  match e.winLast with
  | some c =>
    if c = ERROR_SHARING_VIOLATION then (pre ++ [WEv.entrySharingViolation], none)
    else if c = ERROR_ACCESS_DENIED then (pre ++ [WEv.entryAccessDenied], none)
    else if c = ERROR_FILE_NOT_FOUND then (pre ++ [WEv.entryFileNotFound], none)
    else (pre, some e)
  | none => (pre, some e)

mutual
/-- `DumpDir(path, pool)`: announces the directory, strips a trailing
backslash, starts enumeration, processes each entry, and finally checks
the `FindNextFileW` terminator code (`ERROR_NO_MORE_FILES` is the normal
end; anything else throws).  Returns the event trace and the
`hadesmem::Error` leaving the call, if any. -/
def DumpDir (path : String) (l : DirListing) : List WEv × Option HadesErr :=
  let path_real := normalizePath path
  match l with
  | .failStart code =>
    if code = ERROR_FILE_NOT_FOUND then
      ([WEv.enterDir path, WEv.dirEmpty], none)
    else if code = ERROR_ACCESS_DENIED then
      ([WEv.enterDir path, WEv.dirAccessDenied], none)
    else
      ([WEv.enterDir path], some ⟨"FindFirstFile failed.", some code⟩)
  | .ok entries term =>
    let r := processEntries path_real entries
    match r.2 with
    | some e => (WEv.enterDir path :: r.1, some e)
    | none =>
      if term = ERROR_NO_MORE_FILES then (WEv.enterDir path :: r.1, none)
      else (WEv.enterDir path :: r.1, some ⟨"FindNextFile failed.", some term⟩)

/-- The `do { ... } while (FindNextFileW(...))` loop over the enumerated
entries: entries are processed in order; a `hadesmem::Error` leaving one
entry's processing aborts the loop and propagates. -/
def processEntries (d : String) (es : List Entry) : List WEv × Option HadesErr :=
  match es with
  | [] => ([], none)
  | e :: rest =>
    let r := processEntry d e
    match r.2 with
    | some ex => (r.1, some ex)
    | none =>
      let r2 := processEntries d rest
      (r.1 ++ r2.1, r2.2)

/-- The body of the per-entry loop: `.`/`..` are skipped before anything
else; otherwise the full path is built and announced, then inside the
`try` block the entry is classified — a non-symlink directory is recursed
into, a directory symlink is reported and skipped, and anything
`IsDirectory` rejects (plain files, and symlinks to files) is submitted to
the pool via the retry loop.  `hadesmem::Error`s from classification or
recursion go through `entryCatch`. -/
def processEntry (d : String) (e : Entry) : List WEv × Option HadesErr :=
  if e.name = "." ∨ e.name = ".." then ([], none)
  else
    let cur := d ++ "\\" ++ e.name
    match e with
    | .realDir _ listing =>
      let r := DumpDir cur listing
      (match r.2 with
       | none => (WEv.curPath cur :: r.1, none)
       | some ex => entryCatch (WEv.curPath cur :: r.1) ex)
    | .symlinkE _ isDirAttr rejects =>
      if isDirAttr then ([WEv.curPath cur, WEv.skipSymlink], none)
      else (WEv.curPath cur :: submitLoop cur rejects, none)
    | .plainFile _ rejects =>
      (WEv.curPath cur :: submitLoop cur rejects, none)
    | .raisesErr _ ex =>
      entryCatch [WEv.curPath cur] ex
end

/-- Spot check: a symlink-to-directory entry is announced and skipped. -/
example :
    processEntry "C:\\r" (Entry.symlinkE "s" true 0) =
      ([WEv.curPath "C:\\r\\s", WEv.skipSymlink], none) := by decide

/-- Spot check: a symlink-to-file entry lands in the plain-file branch and
is submitted to the pool. -/
example :
    processEntry "C:\\r" (Entry.symlinkE "s.exe" false 1) =
      ([WEv.curPath "C:\\r\\s.exe", WEv.waitSlot,
        WEv.queueAttempt "C:\\r\\s.exe" false, WEv.waitSlot,
        WEv.queueAttempt "C:\\r\\s.exe" true], none) := by decide

/-- Spot check: sharing violation at `FindFirstFileW` throws. -/
example :
    DumpDir "C:\\r" (DirListing.failStart 32) =
      ([WEv.enterDir "C:\\r"], some ⟨"FindFirstFile failed.", some 32⟩) := by decide

/-! ## Claims about the sniffing pipeline -/

/-- C2: a file that opens, has a strictly positive size representable in an
unsigned 32-bit integer, and whose first two bytes are readable but are not
the ASCII pair `M`,`Z`, is rejected at the magic stage ("Not a PE file
(Pass 1)"), and neither the full-size buffer allocation nor the full read
of the file contents ever executes. -/
theorem C2_magic_reject_skips_full_read (path : String) (f : FileModel)
    (hopen : f.openOk = true) (hpos : 0 < f.size) (hfit : f.size < u32Mod)
    (hseek : f.seek1Ok = true) (hpeek : f.peekOk = true)
    (hmz : ¬(f.byte0 = 77 ∧ f.byte1 = 90)) :
    (DumpFile path f).1 = FOutcome.rejectedMagic ∧
      FEv.allocBuf ∉ (DumpFile path f).2.1 ∧
      FEv.readFull ∉ (DumpFile path f).2.1 := by
  have hle : ¬ f.size ≤ 0 := by omega
  have hmod : f.size % u32Mod = f.size := Int.emod_eq_of_lt (by omega) hfit
  have hmz' : f.byte0 ≠ 77 ∨ f.byte1 ≠ 90 := by tauto
  simp [DumpFile, DumpFileTry, hopen, hle, hmod, hseek, hpeek, hmz']

/-- A concrete non-`MZ` text file for the C2 witness. -/
def fileNoMagic : FileModel :=
  ⟨true, 3, true, true, 65, 66, true, true, true, true, true, true⟩

/-- Witness for C2 at a concrete 3-byte file starting "AB...". -/
theorem C2_magic_reject_skips_full_read_witness :
    (DumpFile "C:\\b.txt" fileNoMagic).1 = FOutcome.rejectedMagic ∧
      FEv.allocBuf ∉ (DumpFile "C:\\b.txt" fileNoMagic).2.1 ∧
      FEv.readFull ∉ (DumpFile "C:\\b.txt" fileNoMagic).2.1 :=
  C2_magic_reject_skips_full_read "C:\\b.txt" fileNoMagic rfl (by decide)
    (by decide) rfl rfl (by decide)

/-- C3: with the file open, a reported size that is zero or negative is
rejected as "Empty or invalid file"; a strictly positive size that does not
survive the `uint32_t` cast round trip is rejected as "File too large to be
a valid PE"; and the pipeline reaches the seek-to-start (the stage after
the size gates) exactly when the file opened and the size is strictly
positive and below `2^32`. -/
theorem C3_size_gates (path : String) (f : FileModel) :
    (f.openOk = true → f.size ≤ 0 →
      (DumpFile path f).1 = FOutcome.rejectedEmpty) ∧
    (f.openOk = true → 0 < f.size → u32Mod ≤ f.size →
      (DumpFile path f).1 = FOutcome.rejectedTooLarge) ∧
    (FEv.seekBeg1 ∈ (DumpFile path f).2.1 ↔
      f.openOk = true ∧ 0 < f.size ∧ f.size < u32Mod) := by
  refine ⟨?_, ?_, ?_⟩
  · intro ho hle
    simp [DumpFile, DumpFileTry, ho, hle]
  · intro ho hpos hge
    have hle : ¬ f.size ≤ 0 := by omega
    have hlt : f.size % u32Mod < u32Mod :=
      Int.emod_lt_of_pos _ (by norm_num [u32Mod])
    have hne : f.size % u32Mod ≠ f.size := by omega
    simp [DumpFile, DumpFileTry, ho, hle, hne]
  · constructor
    · intro hmem
      cases ho : f.openOk with
      | false => simp [DumpFile, DumpFileTry, ho] at hmem
      | true =>
        rcases le_or_lt f.size 0 with hle | hpos
        · simp [DumpFile, DumpFileTry, ho, hle] at hmem
        · rcases lt_or_le f.size u32Mod with hlt | hge
          · exact ⟨rfl, hpos, hlt⟩
          · have hle' : ¬ f.size ≤ 0 := by omega
            have hlt' : f.size % u32Mod < u32Mod :=
              Int.emod_lt_of_pos _ (by norm_num [u32Mod])
            have hne : f.size % u32Mod ≠ f.size := by omega
            simp [DumpFile, DumpFileTry, ho, hle', hne] at hmem
    · rintro ⟨ho, hpos, hlt⟩
      have hle : ¬ f.size ≤ 0 := by omega
      have hmod : f.size % u32Mod = f.size := Int.emod_eq_of_lt (by omega) hlt
      cases h1 : f.seek1Ok
      · simp [DumpFile, DumpFileTry, ho, hle, hmod, h1]
      · cases h2 : f.peekOk
        · simp [DumpFile, DumpFileTry, ho, hle, hmod, h1, h2]
        · by_cases hmz : f.byte0 ≠ 77 ∨ f.byte1 ≠ 90
          · simp [DumpFile, DumpFileTry, ho, hle, hmod, h1, h2, hmz]
          · push_neg at hmz
            cases h3 : f.seek2Ok
            · simp [DumpFile, DumpFileTry, ho, hle, hmod, h1, h2, hmz.1, hmz.2, h3]
            · cases h4 : f.allocOk
              · simp [DumpFile, DumpFileTry, ho, hle, hmod, h1, h2, hmz.1, hmz.2, h3, h4]
              · cases h5 : f.readOk
                · simp [DumpFile, DumpFileTry, ho, hle, hmod, h1, h2, hmz.1, hmz.2,
                    h3, h4, h5]
                · cases h6 : f.processOk
                  · simp [DumpFile, DumpFileTry, ho, hle, hmod, h1, h2, hmz.1, hmz.2,
                      h3, h4, h5, h6]
                  · cases h7 : f.ntOk
                    · simp [DumpFile, DumpFileTry, ho, hle, hmod, h1, h2, hmz.1, hmz.2,
                        h3, h4, h5, h6, h7]
                    · cases h8 : f.dumpOk <;>
                        simp [DumpFile, DumpFileTry, ho, hle, hmod, h1, h2, hmz.1, hmz.2,
                          h3, h4, h5, h6, h7, h8]

/-- A concrete empty file and a concrete 5 GiB file for the C3 witness. -/
def fileEmpty : FileModel :=
  ⟨true, 0, true, true, 77, 90, true, true, true, true, true, true⟩

/-- A concrete file whose size (5 GiB) exceeds the `uint32_t` range. -/
def fileHuge : FileModel :=
  ⟨true, 5368709120, true, true, 77, 90, true, true, true, true, true, true⟩

/-- Witness for C3: the zero-size file is rejected as empty, the 5 GiB file
as too large, and the 3-byte file from C2 reaches the seek stage. -/
theorem C3_size_gates_witness :
    (DumpFile "C:\\e" fileEmpty).1 = FOutcome.rejectedEmpty ∧
      (DumpFile "C:\\h" fileHuge).1 = FOutcome.rejectedTooLarge ∧
      FEv.seekBeg1 ∈ (DumpFile "C:\\b.txt" fileNoMagic).2.1 :=
  ⟨(C3_size_gates "C:\\e" fileEmpty).1 rfl (by decide),
   (C3_size_gates "C:\\h" fileHuge).2.1 rfl (by decide) (by decide),
   ((C3_size_gates "C:\\b.txt" fileNoMagic).2.2).2 ⟨rfl, by decide, by decide⟩⟩

/-- C8: the `NtHeaders` structural-header parse is attempted only on
buffers that passed every earlier stage (open, both size gates, the seek
and the 2-byte magic peek, the second seek, the allocation, the full
read); and when that parse throws, the file is reported as "Not a PE file
or wrong architecture (Pass 2)" and the sniff returns normally — the deep
dump never runs and the uncaught-exception handler never fires. -/
theorem C8_structural_parse_gated (path : String) (f : FileModel) :
    (FEv.ntParse ∈ (DumpFile path f).2.1 →
      f.openOk = true ∧ 0 < f.size ∧ f.size < u32Mod ∧ f.seek1Ok = true ∧
        f.peekOk = true ∧ f.byte0 = 77 ∧ f.byte1 = 90 ∧ f.seek2Ok = true ∧
        f.allocOk = true ∧ f.readOk = true) ∧
    (f.openOk = true → 0 < f.size → f.size < u32Mod → f.seek1Ok = true →
      f.peekOk = true → f.byte0 = 77 → f.byte1 = 90 → f.seek2Ok = true →
      f.allocOk = true → f.readOk = true → f.processOk = true → f.ntOk = false →
      (DumpFile path f).1 = FOutcome.rejectedStructure ∧
        FEv.reportLine FReport.notPePass2 ∈ (DumpFile path f).2.1 ∧
        FEv.deepDump ∉ (DumpFile path f).2.1 ∧
        (∀ o, FEv.logUncaught o ∉ (DumpFile path f).2.1)) := by
  constructor
  · intro hmem
    cases ho : f.openOk with
    | false => simp [DumpFile, DumpFileTry, ho] at hmem
    | true =>
      rcases le_or_lt f.size 0 with hle | hpos
      · simp [DumpFile, DumpFileTry, ho, hle] at hmem
      · rcases lt_or_le f.size u32Mod with hlt | hge
        · have hle' : ¬ f.size ≤ 0 := by omega
          have hmod : f.size % u32Mod = f.size := Int.emod_eq_of_lt (by omega) hlt
          cases h1 : f.seek1Ok
          · simp [DumpFile, DumpFileTry, ho, hle', hmod, h1] at hmem
          · cases h2 : f.peekOk
            · simp [DumpFile, DumpFileTry, ho, hle', hmod, h1, h2] at hmem
            · by_cases hmz : f.byte0 ≠ 77 ∨ f.byte1 ≠ 90
              · simp [DumpFile, DumpFileTry, ho, hle', hmod, h1, h2, hmz] at hmem
              · push_neg at hmz
                cases h3 : f.seek2Ok
                · simp [DumpFile, DumpFileTry, ho, hle', hmod, h1, h2,
                    hmz.1, hmz.2, h3] at hmem
                · cases h4 : f.allocOk
                  · simp [DumpFile, DumpFileTry, ho, hle', hmod, h1, h2,
                      hmz.1, hmz.2, h3, h4] at hmem
                  · cases h5 : f.readOk
                    · simp [DumpFile, DumpFileTry, ho, hle', hmod, h1, h2,
                        hmz.1, hmz.2, h3, h4, h5] at hmem
                    · exact ⟨rfl, hpos, hlt, rfl, rfl, hmz.1, hmz.2, rfl, rfl, rfl⟩
        · have hle' : ¬ f.size ≤ 0 := by omega
          have hlt' : f.size % u32Mod < u32Mod :=
            Int.emod_lt_of_pos _ (by norm_num [u32Mod])
          have hne : f.size % u32Mod ≠ f.size := by omega
          simp [DumpFile, DumpFileTry, ho, hle', hne] at hmem
  · intro ho hpos hlt h1 h2 hb0 hb1 h3 h4 h5 h6 h7
    have hle : ¬ f.size ≤ 0 := by omega
    have hmod : f.size % u32Mod = f.size := Int.emod_eq_of_lt (by omega) hlt
    simp [DumpFile, DumpFileTry, ho, hle, hmod, h1, h2, hb0, hb1, h3, h4, h5, h6, h7]

/-- A concrete `MZ` file whose `NtHeaders` parse throws. -/
def fileBadHeaders : FileModel :=
  ⟨true, 1024, true, true, 77, 90, true, true, true, true, false, true⟩

/-- Witness for C8 at the concrete bad-headers file. -/
theorem C8_structural_parse_gated_witness :
    (FEv.ntParse ∈ (DumpFile "C:\\d.exe" fileBadHeaders).2.1 →
      fileBadHeaders.openOk = true ∧ 0 < fileBadHeaders.size ∧
        fileBadHeaders.size < u32Mod ∧ fileBadHeaders.seek1Ok = true ∧
        fileBadHeaders.peekOk = true ∧ fileBadHeaders.byte0 = 77 ∧
        fileBadHeaders.byte1 = 90 ∧ fileBadHeaders.seek2Ok = true ∧
        fileBadHeaders.allocOk = true ∧ fileBadHeaders.readOk = true) ∧
      (DumpFile "C:\\d.exe" fileBadHeaders).1 = FOutcome.rejectedStructure ∧
      FEv.deepDump ∉ (DumpFile "C:\\d.exe" fileBadHeaders).2.1 :=
  have h := C8_structural_parse_gated "C:\\d.exe" fileBadHeaders
  have h2 := h.2 rfl (by decide) (by decide) rfl rfl rfl rfl rfl rfl rfl rfl rfl
  ⟨h.1, h2.1, h2.2.2.1⟩

/-- C9: `DumpFile` never lets an exception escape: the current-file-path
tracker is set to the file's path at the start of the attempt and still
holds it afterwards whatever happens; and when an otherwise-uncaught
exception is thrown — by the `Process`/`PeFile` construction or by
`DumpPeFile` — the function-level `catch (...)` handler runs, logging the
diagnostic together with that tracked path, and the call returns normally
with the attempt abandoned. -/
theorem C9_task_exception_caught_with_path (path : String) (f : FileModel)
    (hpath : path ≠ "") :
    (DumpFile path f).2.2 = path ∧
    (DumpFile path f).2.1.head? = some FEv.setCurrentPath ∧
    (f.openOk = true → 0 < f.size → f.size < u32Mod → f.seek1Ok = true →
      f.peekOk = true → f.byte0 = 77 → f.byte1 = 90 → f.seek2Ok = true →
      f.allocOk = true → f.readOk = true → f.processOk = false →
      (DumpFile path f).1 = FOutcome.uncaught ∧
        FEv.logUncaught (some path) ∈ (DumpFile path f).2.1) ∧
    (f.openOk = true → 0 < f.size → f.size < u32Mod → f.seek1Ok = true →
      f.peekOk = true → f.byte0 = 77 → f.byte1 = 90 → f.seek2Ok = true →
      f.allocOk = true → f.readOk = true → f.processOk = true → f.ntOk = true →
      f.dumpOk = false →
      (DumpFile path f).1 = FOutcome.uncaught ∧
        FEv.logUncaught (some path) ∈ (DumpFile path f).2.1) := by
  refine ⟨rfl, rfl, ?_, ?_⟩
  · intro ho hpos hlt h1 h2 hb0 hb1 h3 h4 h5 h6
    have hle : ¬ f.size ≤ 0 := by omega
    have hmod : f.size % u32Mod = f.size := Int.emod_eq_of_lt (by omega) hlt
    simp [DumpFile, DumpFileTry, ho, hle, hmod, h1, h2, hb0, hb1, h3, h4, h5, h6, hpath]
  · intro ho hpos hlt h1 h2 hb0 hb1 h3 h4 h5 h6 h7 h8
    have hle : ¬ f.size ≤ 0 := by omega
    have hmod : f.size % u32Mod = f.size := Int.emod_eq_of_lt (by omega) hlt
    simp [DumpFile, DumpFileTry, ho, hle, hmod, h1, h2, hb0, hb1, h3, h4, h5, h6,
      h7, h8, hpath]

/-- A concrete file on which `Process`/`PeFile` construction throws. -/
def fileProcessThrow : FileModel :=
  ⟨true, 1024, true, true, 77, 90, true, true, true, false, true, true⟩

/-- A concrete file on which `DumpPeFile` throws. -/
def fileDumpThrow : FileModel :=
  ⟨true, 1024, true, true, 77, 90, true, true, true, true, true, false⟩

/-- Witness for C9 at two concrete throwing files. -/
theorem C9_task_exception_caught_with_path_witness :
    (DumpFile "C:\\a.exe" fileProcessThrow).2.2 = "C:\\a.exe" ∧
      (DumpFile "C:\\a.exe" fileProcessThrow).1 = FOutcome.uncaught ∧
      FEv.logUncaught (some "C:\\a.exe") ∈
        (DumpFile "C:\\a.exe" fileProcessThrow).2.1 ∧
      (DumpFile "C:\\a.exe" fileDumpThrow).1 = FOutcome.uncaught :=
  have hp := C9_task_exception_caught_with_path "C:\\a.exe" fileProcessThrow
    (by decide)
  have hp2 := hp.2.2.1 rfl (by decide) (by decide) rfl rfl rfl rfl rfl rfl rfl rfl
  have hd := C9_task_exception_caught_with_path "C:\\a.exe" fileDumpThrow
    (by decide)
  have hd2 := hd.2.2.2 rfl (by decide) (by decide) rfl rfl rfl rfl rfl rfl rfl
    rfl rfl rfl
  ⟨hp.1, hp2.1, hp2.2, hd2.1⟩

/-- Modelled from the spec: the `SniffResult` rejection taxonomy of §3 —
`Rejected{reason: enum{EmptyOrUnreadable, TooLarge, NoMagicSignature,
AllocationFailed, TruncatedRead, StructurallyInvalid}}`. -/
inductive SpecSniffReason : Type where
  | emptyOrUnreadable
  | tooLarge
  | noMagicSignature
  | allocationFailed
  | truncatedRead
  | structurallyInvalid
  deriving Repr, DecidableEq

/-- Modelled from the spec: which taxonomy reason each §4.1 stage assigns
to the code's return points.  Open failure and a non-positive size are
`EmptyOrUnreadable`; the failed `uint32_t` round trip is `TooLarge`; a
failed 2-byte peek or a short full read is `TruncatedRead`; a non-`MZ`
signature is `NoMagicSignature`; `bad_alloc` is `AllocationFailed`; a
throwing header parse is `StructurallyInvalid`.  The spec's stages assign
no reason to a failed seek-to-start, so the two seek-warning returns of
the code map to `none` (as do the two non-rejection outcomes). -/
def specSniffReasonOf : FOutcome → Option SpecSniffReason
  | .rejectedOpen => some .emptyOrUnreadable
  | .rejectedEmpty => some .emptyOrUnreadable
  | .rejectedTooLarge => some .tooLarge
  | .rejectedSeek1 => none
  | .rejectedPeek => some .truncatedRead
  | .rejectedMagic => some .noMagicSignature
  | .rejectedSeek2 => none
  | .rejectedAlloc => some .allocationFailed
  | .rejectedRead => some .truncatedRead
  | .rejectedStructure => some .structurallyInvalid
  | .dumped => none
  | .uncaught => none

/-- C10: when either seek-to-start fails — before the 2-byte peek, or
before the full read — `DumpFile` reports the corresponding warning and
returns, without allocating the full buffer, without the header parse and
without the deep dump; and neither of these two return points corresponds
to any reason of the spec's `SniffResult` rejection taxonomy. -/
theorem C10_seek_failure_abandons_file (path : String) (f : FileModel) :
    (f.openOk = true → 0 < f.size → f.size < u32Mod → f.seek1Ok = false →
      (DumpFile path f).1 = FOutcome.rejectedSeek1 ∧
        FEv.reportLine FReport.seekWarn1 ∈ (DumpFile path f).2.1 ∧
        FEv.allocBuf ∉ (DumpFile path f).2.1 ∧
        FEv.ntParse ∉ (DumpFile path f).2.1 ∧
        FEv.deepDump ∉ (DumpFile path f).2.1) ∧
    (f.openOk = true → 0 < f.size → f.size < u32Mod → f.seek1Ok = true →
      f.peekOk = true → f.byte0 = 77 → f.byte1 = 90 → f.seek2Ok = false →
      (DumpFile path f).1 = FOutcome.rejectedSeek2 ∧
        FEv.reportLine FReport.seekWarn2 ∈ (DumpFile path f).2.1 ∧
        FEv.allocBuf ∉ (DumpFile path f).2.1 ∧
        FEv.ntParse ∉ (DumpFile path f).2.1 ∧
        FEv.deepDump ∉ (DumpFile path f).2.1) ∧
    specSniffReasonOf FOutcome.rejectedSeek1 = none ∧
    specSniffReasonOf FOutcome.rejectedSeek2 = none := by
  refine ⟨?_, ?_, rfl, rfl⟩
  · intro ho hpos hlt h1
    have hle : ¬ f.size ≤ 0 := by omega
    have hmod : f.size % u32Mod = f.size := Int.emod_eq_of_lt (by omega) hlt
    simp [DumpFile, DumpFileTry, ho, hle, hmod, h1]
  · intro ho hpos hlt h1 h2 hb0 hb1 h3
    have hle : ¬ f.size ≤ 0 := by omega
    have hmod : f.size % u32Mod = f.size := Int.emod_eq_of_lt (by omega) hlt
    simp [DumpFile, DumpFileTry, ho, hle, hmod, h1, h2, hb0, hb1, h3]

/-- A concrete file whose first seek-to-start fails. -/
def fileSeek1Fail : FileModel :=
  ⟨true, 1024, false, true, 77, 90, true, true, true, true, true, true⟩

/-- A concrete `MZ` file whose second seek-to-start fails. -/
def fileSeek2Fail : FileModel :=
  ⟨true, 1024, true, true, 77, 90, false, true, true, true, true, true⟩

/-- Witness for C10 at the two concrete seek-failing files. -/
theorem C10_seek_failure_abandons_file_witness :
    (DumpFile "C:\\s1" fileSeek1Fail).1 = FOutcome.rejectedSeek1 ∧
      FEv.allocBuf ∉ (DumpFile "C:\\s1" fileSeek1Fail).2.1 ∧
      (DumpFile "C:\\s2" fileSeek2Fail).1 = FOutcome.rejectedSeek2 ∧
      FEv.deepDump ∉ (DumpFile "C:\\s2" fileSeek2Fail).2.1 ∧
      specSniffReasonOf FOutcome.rejectedSeek1 = none :=
  have h1 := (C10_seek_failure_abandons_file "C:\\s1" fileSeek1Fail).1 rfl
    (by decide) (by decide) rfl
  have h2 := (C10_seek_failure_abandons_file "C:\\s2" fileSeek2Fail).2.1 rfl
    (by decide) (by decide) rfl rfl rfl rfl rfl
  ⟨h1.1, h1.2.2.1, h2.1, h2.2.2.2.2,
    (C10_seek_failure_abandons_file "C:\\s1" fileSeek1Fail).2.2.1⟩

/-! ## Claims about the walker -/

/-- A `QueueTask` call that the pool accepted. -/
def isAccepted : WEv → Bool
  | .queueAttempt _ true => true
  | _ => false

/-- The submission loop is `n` failed wait-then-attempt rounds followed by
one accepted round. -/
lemma submitLoop_shape (p : String) (n : Nat) :
    submitLoop p n =
      (List.replicate n [WEv.waitSlot, WEv.queueAttempt p false]).flatten ++
        [WEv.waitSlot, WEv.queueAttempt p true] := by
  induction n with
  | zero => rfl
  | succ k ih => simp [submitLoop, List.replicate_succ, ih]

/-- The submission loop accepts the task exactly once. -/
lemma submitLoop_accepted_once (p : String) (n : Nat) :
    (submitLoop p n).countP isAccepted = 1 := by
  induction n with
  | zero => rfl
  | succ k ih => simp [submitLoop, List.countP_cons, isAccepted, ih]

/-- The accepted `QueueTask` call occurs in the submission loop. -/
lemma submitLoop_accept_mem (p : String) (n : Nat) :
    WEv.queueAttempt p true ∈ submitLoop p n := by
  induction n with
  | zero => simp [submitLoop]
  | succ k ih => simp [submitLoop, ih]

/-- Every `DumpDir` call announces its directory first. -/
lemma DumpDir_enterDir_head (p : String) (l : DirListing) :
    (DumpDir p l).1.head? = some (WEv.enterDir p) := by
  cases l with
  | failStart c =>
    by_cases h1 : c = ERROR_FILE_NOT_FOUND
    · simp [DumpDir, h1]
    · by_cases h2 : c = ERROR_ACCESS_DENIED
      · simp [DumpDir, h1, h2, ERROR_ACCESS_DENIED, ERROR_FILE_NOT_FOUND]
      · simp [DumpDir, h1, h2]
  | ok es t =>
    cases herr : (processEntries (normalizePath p) es).2 with
    | none =>
      by_cases ht : t = ERROR_NO_MORE_FILES
      · simp [DumpDir, herr, ht]
      · simp [DumpDir, herr, ht]
    | some ex => simp [DumpDir, herr]

/-- C6 (confirmed): a plain-file entry is announced, then submitted by the
loop `WaitForSlot(); QueueTask(task)` — the task capturing exactly the
file's path — repeated until `QueueTask` accepts; the sibling entries'
events come only after that loop ends, the loop is `n` rejected rounds
followed by the accepted one, and the task is accepted exactly once. -/
theorem C6_pool_retry_protocol (d name : String) (n : Nat) (rest : List Entry)
    (h1 : name ≠ ".") (h2 : name ≠ "..") :
    processEntries d (Entry.plainFile name n :: rest) =
      (WEv.curPath (d ++ "\\" ++ name) :: submitLoop (d ++ "\\" ++ name) n ++
        (processEntries d rest).1, (processEntries d rest).2) ∧
    submitLoop (d ++ "\\" ++ name) n =
      (List.replicate n [WEv.waitSlot,
        WEv.queueAttempt (d ++ "\\" ++ name) false]).flatten ++
        [WEv.waitSlot, WEv.queueAttempt (d ++ "\\" ++ name) true] ∧
    (submitLoop (d ++ "\\" ++ name) n).countP isAccepted = 1 := by
  refine ⟨?_, submitLoop_shape _ n, submitLoop_accepted_once _ n⟩
  simp [processEntries, processEntry, Entry.name, h1, h2]

/-- Witness for C6: a file rejected twice by the pool before acceptance. -/
theorem C6_pool_retry_protocol_witness :
    processEntries "C:\\r" [Entry.plainFile "a.exe" 2] =
      (WEv.curPath "C:\\r\\a.exe" :: submitLoop "C:\\r\\a.exe" 2 ++
        (processEntries "C:\\r" []).1, (processEntries "C:\\r" []).2) ∧
    submitLoop "C:\\r\\a.exe" 2 =
      (List.replicate 2 [WEv.waitSlot,
        WEv.queueAttempt "C:\\r\\a.exe" false]).flatten ++
        [WEv.waitSlot, WEv.queueAttempt "C:\\r\\a.exe" true] ∧
    (submitLoop "C:\\r\\a.exe" 2).countP isAccepted = 1 :=
  C6_pool_retry_protocol "C:\\r" "a.exe" 2 [] (by decide) (by decide)

/-- C1 counterexample: an entry that the filesystem reports as a symlink
(`IsSymlink` true) whose target is a file (`IsDirectory` false) is *not*
skipped: the walker takes the plain-file branch and submits it to the
pool for sniffing — the accepted `QueueTask` call for its path is in the
trace.  (The code only consults `IsSymlink` inside the `IsDirectory`
branch.) -/
theorem C1_symlinked_file_submitted_cex :
    (Entry.symlinkE "s.exe" false 0).isSymlinkAttr = true ∧
      WEv.queueAttempt "C:\\r\\s.exe" true ∈
        (processEntry "C:\\r" (Entry.symlinkE "s.exe" false 0)).1 := by
  constructor
  · rfl
  · simp [processEntry, Entry.name, submitLoop]

/-- C1 as amended: only entries classified as *directories* are tested for
being symlinks; such a symlinked directory is reported ("Skipping
symlink") and skipped — never recursed into and never submitted to the
pool — so a walk over a tree whose symlink cycle goes through directory
symlinks terminates.  A symlink whose target is a file is treated as a
plain file and submitted for sniffing. -/
theorem C1_symlink_dir_skipped (d name : String) (rejects : Nat)
    (h1 : name ≠ ".") (h2 : name ≠ "..") :
    processEntry d (Entry.symlinkE name true rejects) =
      ([WEv.curPath (d ++ "\\" ++ name), WEv.skipSymlink], none) ∧
    (∀ p, WEv.enterDir p ∉ (processEntry d (Entry.symlinkE name true rejects)).1) ∧
    (∀ p b, WEv.queueAttempt p b ∉
      (processEntry d (Entry.symlinkE name true rejects)).1) := by
  have he : processEntry d (Entry.symlinkE name true rejects) =
      ([WEv.curPath (d ++ "\\" ++ name), WEv.skipSymlink], none) := by
    simp [processEntry, Entry.name, h1, h2]
  refine ⟨he, ?_, ?_⟩
  · intro p
    simp [he]
  · intro p b
    simp [he]

/-- Witness for the amended C1 at a concrete symlinked directory. -/
theorem C1_symlink_dir_skipped_witness :
    processEntry "C:\\r" (Entry.symlinkE "link" true 0) =
      ([WEv.curPath "C:\\r\\link", WEv.skipSymlink], none) ∧
    (∀ p, WEv.enterDir p ∉ (processEntry "C:\\r" (Entry.symlinkE "link" true 0)).1) ∧
    (∀ p b, WEv.queueAttempt p b ∉
      (processEntry "C:\\r" (Entry.symlinkE "link" true 0)).1) :=
  C1_symlink_dir_skipped "C:\\r" "link" 0 (by decide) (by decide)

/-- C4 (confirmed): a `hadesmem::Error` raised while classifying an entry
or recursing into it is handled by the per-entry catch: the Win32 codes
`ERROR_SHARING_VIOLATION`, `ERROR_ACCESS_DENIED` and
`ERROR_FILE_NOT_FOUND` are reported and enumeration continues with the
next sibling; an error carrying any other code — or no code at all — is
rethrown to the caller of the current directory's walk, aborting the
sibling loop. -/
theorem C4_entry_error_dispositions (d name : String) (ex : HadesErr)
    (rest : List Entry) (h1 : name ≠ ".") (h2 : name ≠ "..") :
    (ex.winLast = some ERROR_SHARING_VIOLATION →
      processEntries d (Entry.raisesErr name ex :: rest) =
        ([WEv.curPath (d ++ "\\" ++ name), WEv.entrySharingViolation] ++
          (processEntries d rest).1, (processEntries d rest).2)) ∧
    (ex.winLast = some ERROR_ACCESS_DENIED →
      processEntries d (Entry.raisesErr name ex :: rest) =
        ([WEv.curPath (d ++ "\\" ++ name), WEv.entryAccessDenied] ++
          (processEntries d rest).1, (processEntries d rest).2)) ∧
    (ex.winLast = some ERROR_FILE_NOT_FOUND →
      processEntries d (Entry.raisesErr name ex :: rest) =
        ([WEv.curPath (d ++ "\\" ++ name), WEv.entryFileNotFound] ++
          (processEntries d rest).1, (processEntries d rest).2)) ∧
    (ex.winLast ≠ some ERROR_SHARING_VIOLATION →
      ex.winLast ≠ some ERROR_ACCESS_DENIED →
      ex.winLast ≠ some ERROR_FILE_NOT_FOUND →
      processEntries d (Entry.raisesErr name ex :: rest) =
        ([WEv.curPath (d ++ "\\" ++ name)], some ex)) ∧
    (∀ listing tr, DumpDir (d ++ "\\" ++ name) listing = (tr, some ex) →
      ex.winLast = some ERROR_SHARING_VIOLATION →
      processEntries d (Entry.realDir name listing :: rest) =
        ((WEv.curPath (d ++ "\\" ++ name) :: tr) ++
          WEv.entrySharingViolation :: (processEntries d rest).1,
          (processEntries d rest).2)) ∧
    (∀ listing tr, DumpDir (d ++ "\\" ++ name) listing = (tr, some ex) →
      ex.winLast ≠ some ERROR_SHARING_VIOLATION →
      ex.winLast ≠ some ERROR_ACCESS_DENIED →
      ex.winLast ≠ some ERROR_FILE_NOT_FOUND →
      processEntries d (Entry.realDir name listing :: rest) =
        (WEv.curPath (d ++ "\\" ++ name) :: tr, some ex)) := by
  refine ⟨?_, ?_, ?_, ?_, ?_, ?_⟩
  · intro hw
    simp [processEntries, processEntry, Entry.name, h1, h2, entryCatch, hw,
      ERROR_SHARING_VIOLATION]
  · intro hw
    simp [processEntries, processEntry, Entry.name, h1, h2, entryCatch, hw,
      ERROR_SHARING_VIOLATION, ERROR_ACCESS_DENIED]
  · intro hw
    simp [processEntries, processEntry, Entry.name, h1, h2, entryCatch, hw,
      ERROR_SHARING_VIOLATION, ERROR_ACCESS_DENIED, ERROR_FILE_NOT_FOUND]
  · intro hw1 hw2 hw3
    cases hw : ex.winLast with
    | none =>
      simp [processEntries, processEntry, Entry.name, h1, h2, entryCatch, hw]
    | some c =>
      rw [hw] at hw1 hw2 hw3
      have hc1 : c ≠ ERROR_SHARING_VIOLATION := by
        intro h; exact hw1 (by rw [h])
      have hc2 : c ≠ ERROR_ACCESS_DENIED := by
        intro h; exact hw2 (by rw [h])
      have hc3 : c ≠ ERROR_FILE_NOT_FOUND := by
        intro h; exact hw3 (by rw [h])
      simp [processEntries, processEntry, Entry.name, h1, h2, entryCatch, hw,
        hc1, hc2, hc3]
  · intro listing tr hdd hw
    simp [processEntries, processEntry, Entry.name, h1, h2, entryCatch, hdd, hw,
      ERROR_SHARING_VIOLATION]
  · intro listing tr hdd hw1 hw2 hw3
    cases hw : ex.winLast with
    | none =>
      simp [processEntries, processEntry, Entry.name, h1, h2, entryCatch, hdd, hw]
    | some c =>
      rw [hw] at hw1 hw2 hw3
      have hc1 : c ≠ ERROR_SHARING_VIOLATION := by
        intro h; exact hw1 (by rw [h])
      have hc2 : c ≠ ERROR_ACCESS_DENIED := by
        intro h; exact hw2 (by rw [h])
      have hc3 : c ≠ ERROR_FILE_NOT_FOUND := by
        intro h; exact hw3 (by rw [h])
      simp [processEntries, processEntry, Entry.name, h1, h2, entryCatch, hdd, hw,
        hc1, hc2, hc3]

/-- Witness for C4: an access-denied entry is reported and its sibling is
still processed; an entry with an unrecognized code (87) aborts the loop. -/
theorem C4_entry_error_dispositions_witness :
    processEntries "C:\\r"
        [Entry.raisesErr "locked" ⟨"IsDirectory failed.", some 5⟩,
         Entry.plainFile "a.exe" 0] =
      ([WEv.curPath "C:\\r\\locked", WEv.entryAccessDenied] ++
        (processEntries "C:\\r" [Entry.plainFile "a.exe" 0]).1,
        (processEntries "C:\\r" [Entry.plainFile "a.exe" 0]).2) ∧
    processEntries "C:\\r"
        [Entry.raisesErr "odd" ⟨"IsDirectory failed.", some 87⟩,
         Entry.plainFile "a.exe" 0] =
      ([WEv.curPath "C:\\r\\odd"], some ⟨"IsDirectory failed.", some 87⟩) :=
  ⟨(C4_entry_error_dispositions "C:\\r" "locked" ⟨"IsDirectory failed.", some 5⟩
      [Entry.plainFile "a.exe" 0] (by decide) (by decide)).2.1 rfl,
   (C4_entry_error_dispositions "C:\\r" "odd" ⟨"IsDirectory failed.", some 87⟩
      [Entry.plainFile "a.exe" 0] (by decide) (by decide)).2.2.2.1
      (by decide) (by decide) (by decide)⟩

/-- C5 counterexample: a sharing violation when starting enumeration is
*not* reported-and-absorbed — `FindFirstFileW` failing with
`ERROR_SHARING_VIOLATION` falls through both handled cases and throws a
structured fatal error carrying the code, contrary to the claim that every
Skip-disposition code (including sharing violation) returns without
error. -/
theorem C5_enum_start_sharing_violation_fatal_cex :
    DumpDir "C:\\r" (DirListing.failStart ERROR_SHARING_VIOLATION) =
      ([WEv.enterDir "C:\\r"],
        some ⟨"FindFirstFile failed.", some ERROR_SHARING_VIOLATION⟩) ∧
    (DumpDir "C:\\r" (DirListing.failStart ERROR_SHARING_VIOLATION)).2 ≠
      none := by
  have h : DumpDir "C:\\r" (DirListing.failStart ERROR_SHARING_VIOLATION) =
      ([WEv.enterDir "C:\\r"],
        some ⟨"FindFirstFile failed.", some ERROR_SHARING_VIOLATION⟩) := by
    simp [DumpDir, ERROR_SHARING_VIOLATION, ERROR_FILE_NOT_FOUND,
      ERROR_ACCESS_DENIED]
  exact ⟨h, by simp [h]⟩

/-- C5 as amended: when starting enumeration fails, only
`ERROR_FILE_NOT_FOUND` (reported as "Directory is empty", exactly once)
and `ERROR_ACCESS_DENIED` (reported as "Access denied to directory") make
the walk return without error; *every* other code — sharing violation
included — propagates as a structured fatal error carrying the raw OS
code. -/
theorem C5_enum_start_dispositions (p : String) (c : Nat) :
    (c = ERROR_FILE_NOT_FOUND →
      DumpDir p (DirListing.failStart c) =
        ([WEv.enterDir p, WEv.dirEmpty], none) ∧
      (DumpDir p (DirListing.failStart c)).1.count WEv.dirEmpty = 1) ∧
    (c = ERROR_ACCESS_DENIED →
      DumpDir p (DirListing.failStart c) =
        ([WEv.enterDir p, WEv.dirAccessDenied], none)) ∧
    (c ≠ ERROR_FILE_NOT_FOUND → c ≠ ERROR_ACCESS_DENIED →
      DumpDir p (DirListing.failStart c) =
        ([WEv.enterDir p], some ⟨"FindFirstFile failed.", some c⟩)) := by
  refine ⟨?_, ?_, ?_⟩
  · intro h
    have he : DumpDir p (DirListing.failStart c) =
        ([WEv.enterDir p, WEv.dirEmpty], none) := by
      simp [DumpDir, h]
    refine ⟨he, ?_⟩
    simp [he, List.count_cons]
  · intro h
    simp [DumpDir, h, ERROR_ACCESS_DENIED, ERROR_FILE_NOT_FOUND]
  · intro hc1 hc2
    simp [DumpDir, hc1, hc2]

/-- Witness for the amended C5 at codes 2, 5 and 32. -/
theorem C5_enum_start_dispositions_witness :
    DumpDir "C:\\a" (DirListing.failStart 2) =
      ([WEv.enterDir "C:\\a", WEv.dirEmpty], none) ∧
    DumpDir "C:\\a" (DirListing.failStart 5) =
      ([WEv.enterDir "C:\\a", WEv.dirAccessDenied], none) ∧
    DumpDir "C:\\a" (DirListing.failStart 32) =
      ([WEv.enterDir "C:\\a"], some ⟨"FindFirstFile failed.", some 32⟩) :=
  ⟨((C5_enum_start_dispositions "C:\\a" 2).1 rfl).1,
   (C5_enum_start_dispositions "C:\\a" 5).2.1 rfl,
   (C5_enum_start_dispositions "C:\\a" 32).2.2 (by decide) (by decide)⟩

/-- The four possible results of the per-entry catch handler. -/
lemma entryCatch_cases (pre : List WEv) (ex : HadesErr) :
    entryCatch pre ex = (pre ++ [WEv.entrySharingViolation], none) ∨
    entryCatch pre ex = (pre ++ [WEv.entryAccessDenied], none) ∨
    entryCatch pre ex = (pre ++ [WEv.entryFileNotFound], none) ∨
    entryCatch pre ex = (pre, some ex) := by
  unfold entryCatch
  cases ex.winLast with
  | none => simp
  | some c =>
    by_cases h1 : c = ERROR_SHARING_VIOLATION
    · simp [h1]
    · by_cases h2 : c = ERROR_ACCESS_DENIED
      · simp [h1, h2, ERROR_ACCESS_DENIED, ERROR_SHARING_VIOLATION]
      · by_cases h3 : c = ERROR_FILE_NOT_FOUND
        · simp [h1, h2, h3, ERROR_FILE_NOT_FOUND, ERROR_SHARING_VIOLATION,
            ERROR_ACCESS_DENIED]
        · simp [h1, h2, h3]

/-- Every `DumpDir` call's trace contains its own announcement. -/
lemma DumpDir_enterDir_mem (p : String) (l : DirListing) :
    WEv.enterDir p ∈ (DumpDir p l).1 := by
  cases l with
  | failStart c =>
    by_cases hc1 : c = ERROR_FILE_NOT_FOUND
    · simp [DumpDir, hc1]
    · by_cases hc2 : c = ERROR_ACCESS_DENIED
      · simp [DumpDir, hc1, hc2, ERROR_ACCESS_DENIED, ERROR_FILE_NOT_FOUND]
      · simp [DumpDir, hc1, hc2]
  | ok es t =>
    cases herr : (processEntries (normalizePath p) es).2 with
    | none =>
      by_cases ht : t = ERROR_NO_MORE_FILES
      · simp [DumpDir, herr, ht]
      · simp [DumpDir, herr, ht]
    | some ex => simp [DumpDir, herr]

/-- C7 counterexample: the `.` entry, which `FindFirstFileW` does
enumerate, is dropped with no report of any kind — its processing emits
an empty trace, so it is neither recursed into, nor submitted, nor
explicitly reported as skipped, contradicting "no enumerated entry is
silently dropped". -/
theorem C7_dot_entry_silently_dropped_cex :
    processEntry "C:\\r"
        (Entry.realDir "." (DirListing.failStart ERROR_FILE_NOT_FOUND)) =
      ([], none) := by
  simp [processEntry, Entry.name]

/-- C7 as amended: entries named `.` and `..` are always skipped, silently
(no report); every *other* enumerated entry is announced ("Current path")
and is then recursed into, or submitted to the pool, or reported as
skipped (symlink / sharing violation / access denied / file not found),
or re-raises its error — so no entry other than `.`/`..` is silently
dropped. -/
theorem C7_no_silent_drop_except_dots (d : String) (e : Entry) :
    (e.name = "." ∨ e.name = ".." → processEntry d e = ([], none)) ∧
    (e.name ≠ "." → e.name ≠ ".." →
      (processEntry d e).1.head? =
        some (WEv.curPath (d ++ "\\" ++ e.name)) ∧
      (WEv.enterDir (d ++ "\\" ++ e.name) ∈ (processEntry d e).1 ∨
       WEv.queueAttempt (d ++ "\\" ++ e.name) true ∈ (processEntry d e).1 ∨
       WEv.skipSymlink ∈ (processEntry d e).1 ∨
       WEv.entrySharingViolation ∈ (processEntry d e).1 ∨
       WEv.entryAccessDenied ∈ (processEntry d e).1 ∨
       WEv.entryFileNotFound ∈ (processEntry d e).1 ∨
       (processEntry d e).2 ≠ none)) := by
  constructor
  · intro h
    cases e with
    | realDir n l =>
      simp only [Entry.name] at h
      simp [processEntry, Entry.name, h]
    | symlinkE n b rej =>
      simp only [Entry.name] at h
      simp [processEntry, Entry.name, h]
    | plainFile n rej =>
      simp only [Entry.name] at h
      simp [processEntry, Entry.name, h]
    | raisesErr n ex =>
      simp only [Entry.name] at h
      simp [processEntry, Entry.name, h]
  · intro h1 h2
    cases e with
    | realDir n l =>
      simp only [Entry.name] at h1 h2 ⊢
      have hmem := DumpDir_enterDir_mem (d ++ "\\" ++ n) l
      cases herr : (DumpDir (d ++ "\\" ++ n) l).2 with
      | none =>
        simp [processEntry, Entry.name, h1, h2, herr]
        exact Or.inl hmem
      | some ex =>
        rcases entryCatch_cases
            (WEv.curPath (d ++ "\\" ++ n) :: (DumpDir (d ++ "\\" ++ n) l).1) ex
          with hc | hc | hc | hc <;>
          simp [processEntry, Entry.name, h1, h2, herr, hc]
    | symlinkE n b rej =>
      simp only [Entry.name] at h1 h2 ⊢
      cases b with
      | false =>
        refine ⟨?_, Or.inr (Or.inl ?_)⟩
        · simp [processEntry, Entry.name, h1, h2]
        · simpa [processEntry, Entry.name, h1, h2] using
            submitLoop_accept_mem (d ++ "\\" ++ n) rej
      | true => simp [processEntry, Entry.name, h1, h2]
    | plainFile n rej =>
      simp only [Entry.name] at h1 h2 ⊢
      refine ⟨?_, Or.inr (Or.inl ?_)⟩
      · simp [processEntry, Entry.name, h1, h2]
      · simpa [processEntry, Entry.name, h1, h2] using
          submitLoop_accept_mem (d ++ "\\" ++ n) rej
    | raisesErr n ex =>
      simp only [Entry.name] at h1 h2 ⊢
      rcases entryCatch_cases [WEv.curPath (d ++ "\\" ++ n)] ex
        with hc | hc | hc | hc <;>
        simp [processEntry, Entry.name, h1, h2, hc]

/-- Witness for the amended C7 at a concrete plain file. -/
theorem C7_no_silent_drop_except_dots_witness :
    (processEntry "C:\\r" (Entry.plainFile "a.exe" 0)).1.head? =
      some (WEv.curPath "C:\\r\\a.exe") ∧
    (WEv.enterDir "C:\\r\\a.exe" ∈
        (processEntry "C:\\r" (Entry.plainFile "a.exe" 0)).1 ∨
      WEv.queueAttempt "C:\\r\\a.exe" true ∈
        (processEntry "C:\\r" (Entry.plainFile "a.exe" 0)).1 ∨
      WEv.skipSymlink ∈ (processEntry "C:\\r" (Entry.plainFile "a.exe" 0)).1 ∨
      WEv.entrySharingViolation ∈
        (processEntry "C:\\r" (Entry.plainFile "a.exe" 0)).1 ∨
      WEv.entryAccessDenied ∈
        (processEntry "C:\\r" (Entry.plainFile "a.exe" 0)).1 ∨
      WEv.entryFileNotFound ∈
        (processEntry "C:\\r" (Entry.plainFile "a.exe" 0)).1 ∨
      (processEntry "C:\\r" (Entry.plainFile "a.exe" 0)).2 ≠ none) :=
  (C7_no_silent_drop_except_dots "C:\\r" (Entry.plainFile "a.exe" 0)).2
    (by decide) (by decide)

end HadesDump
